import Mathlib

/-!
Shallow embedding of the `piyushcodings/renderbot` repository
(`src/render_api.py` and `src/bot.py`) and proofs about it.

Conventions of the embedding:
* JSON-like Python values (parsed response bodies, request bodies) are
  modelled by the inductive type `JVal`; Python truthiness is `JVal.truthy`.
* The HTTP layer (`httpx`) is modelled by a `Transport`: a function from the
  request the client builds to the transport-level outcome (either a raised
  `httpx.RequestError` or a response with a status code and a body).  Each
  API method returns its `(ok, data)` pair together with the list of HTTP
  requests it issued, so "number of remote calls" is observable.
* Python `dict`s are modelled as insertion-ordered association lists
  (`List (String × _)`) or, for the per-user stores, as functions
  `String → Option _` keyed by the stringified user id.
* Persistence (`save_state`) and logging are I/O side effects with no
  bearing on any claim and are not modelled.
-/

/-- JSON-like Python value (result of `resp.json()`, request bodies, ...).
Objects are insertion-ordered association lists, like Python dicts. -/
inductive JVal where
  | null : JVal
  | bool : Bool → JVal
  | num : Int → JVal
  | str : String → JVal
  | arr : List JVal → JVal
  | obj : List (String × JVal) → JVal

namespace JVal

/-- Python truthiness of a JSON-derived value: `None`, `False`, `0`, `""`,
`[]` and the empty dict are falsy, everything else truthy. -/
def truthy : JVal → Bool
  | .null => false
  | .bool b => b
  | .num n => n != 0
  | .str s => s != ""
  | .arr xs => !xs.isEmpty
  | .obj fs => !fs.isEmpty

/-- `dict.get(k)` on an association list: the first binding of `k`, if any. -/
def jget : List (String × JVal) → String → Option JVal
  | [], _ => none
  | (k', v) :: rest, k => if k' = k then some v else jget rest k

/-- Total version of Python `value.get(k)`: returns `null` when the key is
absent (Python `None`) and also when the value is not a dict.  In the source
a `.get` on a non-dict raises `AttributeError`; every call site below either
guards with `isinstance(..., dict)` / `or {}` or only ever receives dicts in
real Render payloads, so totalising with `null` does not change the behaviour
exercised by any theorem in this file. -/
def getv : JVal → String → JVal
  | .obj fs, k => (jget fs k).getD .null
  | _, _ => .null

/-- Python `a or b` on values: `a` if truthy, else `b`. -/
def pyOr (a b : JVal) : JVal := if a.truthy then a else b

/-- Whether a value is a Python dict containing key `k` (`"k" in v`). -/
def hasKey : JVal → String → Bool
  | .obj fs, k => (jget fs k).isSome
  | _, _ => false

end JVal

mutual
/-- Python `repr` of a JSON-derived value (string escaping inside the repr is
not reproduced; no claim depends on it). -/
def pyRepr : JVal → String
  | .null => "None"
  | .bool true => "True"
  | .bool false => "False"
  | .num n => toString n
  | .str s => "'" ++ s ++ "'"
  | .arr xs => "[" ++ pyReprList xs ++ "]"
  | .obj fs => "\x7b" ++ pyReprFields fs ++ "\x7d"

/-- comma-separated reprs of the elements of a list -/
def pyReprList : List JVal → String
  | [] => ""
  | [x] => pyRepr x
  | x :: xs => pyRepr x ++ ", " ++ pyReprList xs

/-- comma-separated reprs of the fields of a dict -/
def pyReprFields : List (String × JVal) → String
  | [] => ""
  | [(k, v)] => "'" ++ k ++ "': " ++ pyRepr v
  | (k, v) :: fs => "'" ++ k ++ "': " ++ pyRepr v ++ ", " ++ pyReprFields fs
end

/-- Python `str()` of a JSON-derived value. -/
def pyStr : JVal → String
  | .str s => s
  | v => pyRepr v

/-- A value appearing in an HTTP query-parameter dict (`params=` in httpx):
the source puts both strings and ints there. -/
inductive PValue where
  | str : String → PValue
  | int : Int → PValue
deriving DecidableEq

/-- One HTTP request as built by `RenderAPI._request`: method, path under the
base URL, query params, optional JSON body, and the Authorization credential
from `_headers` (present iff `self.api_key` is set). -/
structure HttpRequest where
  method : String
  path : String
  params : List (String × PValue)
  body? : Option JVal
  auth? : Option String

/-- Transport-level outcome of attempting one HTTP request, as seen by the
`try`/`except` in `_request`: either `httpx.RequestError` was raised
(timeout, connection refused, ...) with message `emsg`, or a response came
back with a status code, an optional JSON-parsed body (`resp.json()`, absent
when parsing raises) and the raw text body (`resp.text`). -/
inductive TransportOutcome where
  | requestError : (emsg : String) → TransportOutcome
  | response : (status : Nat) → (jsonBody? : Option JVal) → (textBody : String) → TransportOutcome

/-- The environment the client runs against: what the network does with each
request the client issues. -/
def Transport := HttpRequest → TransportOutcome

/-- `RenderAPI` instance state: the `api_key` given to the constructor. -/
structure RenderAPI where
  api_key : Option String

namespace RenderAPI

/-- Body parsing in `_request`: `data = resp.json()` and on exception
`data = resp.text`. -/
def parseBody (jsonBody? : Option JVal) (textBody : String) : JVal :=
  match jsonBody? with
  | some j => j
  | none => .str textBody

/-- The pure core of `RenderAPI._request` (render_api.py lines 45-67): maps
the transport outcome of one request to the `(ok, data)` pair it returns.
`httpx.RequestError` → `(False, {"error": str(e)})`; a 2xx response →
`(True, data)`; any other response →
`(False, {"status_code": ..., "body": data})`.  No other exit exists, so the
function never raises past this boundary. -/
def requestResult (o : TransportOutcome) : Bool × JVal :=
  match o with
  | .requestError emsg => (false, .obj [("error", .str emsg)])
  | .response status jsonBody? textBody =>
    let data := parseBody jsonBody? textBody
    if 200 ≤ status ∧ status < 300 then (true, data)
    else (false, .obj [("status_code", .num status), ("body", data)])

/-- `RenderAPI._request` with the issued request recorded: builds the request
(adding the Authorization header from `_headers`), runs it against the
transport, and normalises the outcome with `requestResult`. -/
def request (t : Transport) (api : RenderAPI) (method path : String)
    (params : List (String × PValue)) (body? : Option JVal) :
    (Bool × JVal) × List HttpRequest :=
  let req : HttpRequest := ⟨method, path, params, body?, api.api_key⟩
  (requestResult (t req), [req])

/-- `RenderAPI.owners`: `GET /owners`. -/
def owners (t : Transport) (api : RenderAPI) : (Bool × JVal) × List HttpRequest :=
  request t api "GET" "/owners" [] none

/-- `owner.get("type") == tname` for the owner value of an item. -/
def ownerTypeIs (owner : JVal) (tname : String) : Bool :=
  match owner.getv "type" with
  | .str s => s == tname
  | _ => false

/-- One pass of the loops in `resolve_owner_id` (render_api.py lines 78-85):
the first item whose `owner` value is truthy and has `type == tname`.
`owner = item.get("owner") if isinstance(item, dict) else None`, and a `None`
(here `null`) owner is falsy and skipped. -/
def findOwnerWithType (tname : String) : List JVal → Option JVal
  | [] => none
  | item :: rest =>
    let owner : JVal :=
      match item with
      | .obj fs => (JVal.jget fs "owner").getD .null
      | _ => .null
    if owner.truthy && ownerTypeIs owner tname then some owner
    else findOwnerWithType tname rest

/-- `RenderAPI.resolve_owner_id` (render_api.py lines 73-86): fetch `/owners`;
on failure or a non-list payload return `(None, data)`; otherwise return the
`id` of the first owner of type `"team"`, else of the first owner of type
`"user"`, else `None`.  Python `None` is modelled by `JVal.null` in the first
component. -/
def resolve_owner_id (t : Transport) (api : RenderAPI) :
    (JVal × JVal) × List HttpRequest :=
  let ((ok, data), calls) := owners t api
  match ok, data with
  | true, .arr items =>
    (match findOwnerWithType "team" items with
     | some ow => ((ow.getv "id", .arr items), calls)
     | none =>
       match findOwnerWithType "user" items with
       | some ow => ((ow.getv "id", .arr items), calls)
       | none => ((.null, .arr items), calls))
  | _, _ => ((.null, data), calls)

/-- `RenderAPI.list_services` (render_api.py lines 89-94): `GET /services`
with `params["limit"] = min(int(limit), 100)` when `limit` is truthy
(nonzero). -/
def list_services (t : Transport) (api : RenderAPI) (limit : Int) :
    (Bool × JVal) × List HttpRequest :=
  let params : List (String × PValue) :=
    if limit ≠ 0 then [("limit", .int (min limit 100))] else []
  request t api "GET" "/services" params none

/-- `RenderAPI.get_service`: `GET /services/{service_id}`. -/
def get_service (t : Transport) (api : RenderAPI) (service_id : String) :
    (Bool × JVal) × List HttpRequest :=
  request t api "GET" ("/services/" ++ service_id) [] none

end RenderAPI

/-- `VALID_SERVICE_TYPES` (render_api.py lines 25-32).  The source is a set
literal; only membership is ever used, so a list is an adequate model. -/
def VALID_SERVICE_TYPES : List String :=
  ["static_site", "web_service", "private_service", "background_worker",
   "cron_job", "workflow"]

/-- `repo_types` (render_api.py line 125): the service types for which
`create_service` requires a repo. -/
def repo_types : List String :=
  ["web_service", "private_service", "background_worker", "workflow"]

/-- Python truthiness of an optional string (`if not repo:` is taken both for
`None` and for `""`). -/
def truthyS : Option String → Bool
  | none => false
  | some s => s != ""

namespace RenderAPI

/-- The `{"status_code": 400, "body": {"message": msg}}` descriptor returned
by the local validation branches of `create_service`. -/
def localError400 (msg : String) : JVal :=
  .obj [("status_code", .num 400), ("body", .obj [("message", .str msg)])]

/-- `RenderAPI.create_service` (render_api.py lines 99-152).  `owner_id` is
typed `JVal` because the caller in bot.py forwards `resolve_owner_id`'s raw
result into the body unchanged.  Rejects an invalid `service_type`, and a
missing (falsy) `repo` for the repo-requiring types, locally with a
`status_code: 400` descriptor and no HTTP request; otherwise POSTs the
assembled body to `/services`. -/
def create_service (t : Transport) (api : RenderAPI) (owner_id : JVal)
    (name service_type : String) (repo : Option String) (branch : String)
    (runtime start_command build_command : Option String)
    (env_vars : Option (List (String × String))) (plan : Option String) :
    (Bool × JVal) × List HttpRequest :=
  if service_type ∉ VALID_SERVICE_TYPES then
    ((false, localError400 ("invalid service type: " ++ service_type)), [])
  else if service_type ∈ repo_types && !truthyS repo then
    ((false, localError400 "repo is required for selected service type"), [])
  else
    let base : List (String × JVal) :=
      [("ownerId", owner_id), ("name", .str name), ("type", .str service_type)]
    let repoFields : List (String × JVal) :=
      if service_type ∈ repo_types then
        [("repo", .str (repo.getD "")), ("branch", .str branch)]
        ++ (match runtime with
            | some r => if r != "" then [("runtime", .str r)] else []
            | none => [])
        ++ (match start_command with
            | some c => if c != "" then [("startCommand", .str c)] else []
            | none => [])
        ++ (match build_command with
            | some c => if c != "" then [("buildCommand", .str c)] else []
            | none => [])
        ++ (match env_vars with
            | some kv =>
              if kv.isEmpty then []
              else [("envVars",
                     .arr (kv.map fun p =>
                       .obj [("key", .str p.1), ("value", .str p.2)]))]
            | none => [])
      else []
    let staticFields : List (String × JVal) :=
      if service_type = "static_site" then
        (if truthyS repo then
          [("repo", .str (repo.getD "")), ("branch", .str branch)]
         else [])
        ++ (match build_command with
            | some c => if c != "" then [("buildCommand", .str c)] else []
            | none => [])
      else []
    let planFields : List (String × JVal) :=
      match plan with
      | some p => if p != "" then [("plan", .str p)] else []
      | none => []
    let body := base ++ repoFields ++ staticFields ++ planFields
    request t api "POST" "/services" [] (some (.obj body))

/-- `RenderAPI.update_service`: `PATCH /services/{service_id}` with the given
update fields as JSON body. -/
def update_service (t : Transport) (api : RenderAPI) (service_id : String)
    (update_fields : List (String × JVal)) : (Bool × JVal) × List HttpRequest :=
  request t api "PATCH" ("/services/" ++ service_id) [] (some (.obj update_fields))

/-- `RenderAPI.trigger_deploy` (render_api.py lines 158-160):
`POST /services/{service_id}/deploys` with body `{"clearCache": bool}`. -/
def trigger_deploy (t : Transport) (api : RenderAPI) (service_id : String)
    (clear_cache : Bool) : (Bool × JVal) × List HttpRequest :=
  request t api "POST" ("/services/" ++ service_id ++ "/deploys") []
    (some (.obj [("clearCache", .bool clear_cache)]))

/-- `RenderAPI.restart_service` (render_api.py lines 162-168): try
`POST /services/{service_id}/restart` with an empty JSON body; if that fails,
fall back to `trigger_deploy(service_id, clear_cache=False)`. -/
def restart_service (t : Transport) (api : RenderAPI) (service_id : String) :
    (Bool × JVal) × List HttpRequest :=
  let ((ok, res), calls1) :=
    request t api "POST" ("/services/" ++ service_id ++ "/restart") []
      (some (.obj []))
  if ok then ((true, res), calls1)
  else
    let (r2, calls2) := trigger_deploy t api service_id false
    (r2, calls1 ++ calls2)

/-- `RenderAPI.get_service_logs` (render_api.py lines 171-174):
`GET /services/{service_id}/logs` with `tail` and
`limit = min(int(limit), 100)`. -/
def get_service_logs (t : Transport) (api : RenderAPI) (service_id : String)
    (tail : Bool) (limit : Int) : (Bool × JVal) × List HttpRequest :=
  let params : List (String × PValue) :=
    [("tail", .str (if tail then "true" else "false")),
     ("limit", .int (min limit 100))]
  request t api "GET" ("/services/" ++ service_id ++ "/logs") params none

/-- `RenderAPI.list_env_vars`: `GET /services/{service_id}/env-vars`. -/
def list_env_vars (t : Transport) (api : RenderAPI) (service_id : String) :
    (Bool × JVal) × List HttpRequest :=
  request t api "GET" ("/services/" ++ service_id ++ "/env-vars") [] none

/-- `RenderAPI.upsert_env_vars` (render_api.py lines 180-182):
`PUT /services/{service_id}/env-vars` with body
`[{"key": k, "value": v} for k, v in kv.items()]`. -/
def upsert_env_vars (t : Transport) (api : RenderAPI) (service_id : String)
    (kv : List (String × String)) : (Bool × JVal) × List HttpRequest :=
  request t api "PUT" ("/services/" ++ service_id ++ "/env-vars") []
    (some (.arr (kv.map fun p => .obj [("key", .str p.1), ("value", .str p.2)])))

/-- `RenderAPI.delete_env_var`:
`DELETE /services/{service_id}/env-vars/{key_name}`. -/
def delete_env_var (t : Transport) (api : RenderAPI) (service_id key_name : String) :
    (Bool × JVal) × List HttpRequest :=
  request t api "DELETE" ("/services/" ++ service_id ++ "/env-vars/" ++ key_name)
    [] none

/-- `RenderAPI.list_logs` (render_api.py lines 188-199, unused by bot.py):
`GET /logs` with the
optional truthy params appended in source order; a truthy `limit` is clamped
with `min(int(limit), 100)`. -/
def list_logs (t : Transport) (api : RenderAPI)
    (start_time end_time cursor : Option String) (limit : Option Int) :
    (Bool × JVal) × List HttpRequest :=
  let params : List (String × PValue) :=
    (match start_time with
     | some s => if s != "" then [("startTime", .str s)] else []
     | none => [])
    ++ (match end_time with
        | some s => if s != "" then [("endTime", .str s)] else []
        | none => [])
    ++ (match cursor with
        | some s => if s != "" then [("cursor", .str s)] else []
        | none => [])
    ++ (match limit with
        | some l => if l ≠ 0 then [("limit", .int (min l 100))] else []
        | none => [])
  request t api "GET" "/logs" params none

end RenderAPI

/-! ## bot.py — state, helpers, keyboards -/

/-- One in-progress flow entry stored in `state["_pending"]` (bot.py): the
`{"type": ..., ...}` dicts written by the flow-initiating handlers. -/
inductive PendEntry where
  | create : (service_type : String) → PendEntry
  | set_repo : (service_id : String) → PendEntry
  | env_add : (service_id : String) → PendEntry
  | env_del : (service_id : String) → PendEntry
deriving DecidableEq

/-- One entry of `state["repos"]`:
`{"repo": ..., "branch": ..., "startCommand": ...}`. -/
structure RepoMapping where
  repo : String
  branch : String
  startCommand : Option String
deriving DecidableEq

/-- The mutable `state` dict of bot.py.  User-keyed dicts are modelled as
functions from the stringified user id (`str(user_id)`); `repos` keeps
insertion order like a Python dict.  `save_state` persistence is I/O and not
modelled. -/
structure BotState where
  api_keys : String → Option String
  repos : List (String × RepoMapping)
  pending : String → Option PendEntry

/-- Python dict assignment `m[k] = v` on an insertion-ordered association
list: update in place if the key exists, else append. -/
def dictSet {α : Type} (m : List (String × α)) (k : String) (v : α) :
    List (String × α) :=
  if m.any (fun p => p.1 == k) then
    m.map (fun p => if p.1 == k then (k, v) else p)
  else m ++ [(k, v)]

/-- Python dict lookup `m.get(k)`. -/
def dictGet {α : Type} (m : List (String × α)) (k : String) : Option α :=
  (m.find? (fun p => p.1 == k)).map Prod.snd

/-- `set_user_key` (bot.py lines 62-64). -/
def set_user_key (st : BotState) (uid key : String) : BotState :=
  { st with api_keys := fun u => if u = uid then some key else st.api_keys u }

/-- `get_user_key` (bot.py lines 67-68). -/
def get_user_key (st : BotState) (uid : String) : Option String :=
  st.api_keys uid

/-- `set_repo_mapping` (bot.py lines 71-73). -/
def set_repo_mapping (st : BotState) (service_id repo branch : String)
    (start_command : Option String) : BotState :=
  { st with repos := dictSet st.repos service_id ⟨repo, branch, start_command⟩ }

/-- `get_repo_mapping` (bot.py lines 76-77). -/
def get_repo_mapping (st : BotState) (service_id : String) : Option RepoMapping :=
  dictGet st.repos service_id

/-- `set_pending` (bot.py lines 80-82): unconditionally overwrite the single
pending slot of that user. -/
def set_pending (st : BotState) (uid : String) (entry : PendEntry) : BotState :=
  { st with pending := fun u => if u = uid then some entry else st.pending u }

/-- `pop_pending` (bot.py lines 85-86): remove and return the user's pending
entry (or `None`). -/
def pop_pending (st : BotState) (uid : String) : Option PendEntry × BotState :=
  (st.pending uid,
   { st with pending := fun u => if u = uid then none else st.pending u })

/-- `html_escape` (bot.py lines 90-93) applied to a string argument. -/
def html_escapeS (s : String) : String :=
  ((s.replace "&" "&amp;").replace "<" "&lt;").replace ">" "&gt;"

/-- `html_escape` (bot.py lines 90-93) on a JSON-derived value: `None` maps
to `""`, anything else is `str(s)` escaped. -/
def html_escapeV (v : JVal) : String :=
  match v with
  | .null => ""
  | v => html_escapeS (pyStr v)

/-- `html_escape` on an optional string (call sites passing a value that may
be Python `None`). -/
def html_escapeO : Option String → String
  | none => ""
  | some s => html_escapeS s

/-- An inline keyboard button: label and `callback_data`. -/
structure Button where
  label : String
  callback_data : String
deriving DecidableEq

/-- An `InlineKeyboardMarkup`: rows of buttons. -/
abbrev Keyboard := List (List Button)

/-- `main_menu` (bot.py lines 133-140). -/
def main_menu : Keyboard :=
  [[⟨"ğŸ‘¤ Account", "account"⟩],
   [⟨"ğŸ“‹ List Apps", "list_apps"⟩],
   [⟨"â• Create App", "create_root"⟩],
   [⟨"ğŸ—‚ Repo Mappings", "repo_mappings"⟩]]

/-- `service_menu` (bot.py lines 143-152). -/
def service_menu (sid : String) : Keyboard :=
  [[⟨"ğŸ“¡ Status", "svc_status:" ++ sid⟩],
   [⟨"ğŸªµ Logs", "svc_logs:" ++ sid ++ ":1"⟩, ⟨"ğŸ”„ Restart", "svc_restart:" ++ sid⟩],
   [⟨"ğŸ”— Set Repo/Start", "svc_repo_set:" ++ sid⟩, ⟨"ğŸš€ Deploy", "svc_deploy:" ++ sid⟩],
   [⟨"ğŸŒ Env Vars", "svc_env:" ++ sid⟩],
   [⟨"â¬…ï¸ Back", "list_apps"⟩]]

/-- `logs_nav` (bot.py lines 155-161). -/
def logs_nav (sid : String) (page : Int) : Keyboard :=
  [[⟨"â—€ï¸ Prev", "svc_logs:" ++ sid ++ ":" ++ toString (max 1 (page - 1))⟩,
    ⟨"â–¶ï¸ Next", "svc_logs:" ++ sid ++ ":" ++ toString (page + 1)⟩],
   [⟨"â¬…ï¸ Back", "svc:" ++ sid⟩]]

/-- `service_type_kb` (bot.py lines 164-178). -/
def service_type_kb : Keyboard :=
  [[⟨"Web Service", "create_type:web_service"⟩],
   [⟨"Static Site", "create_type:static_site"⟩],
   [⟨"Private Service", "create_type:private_service"⟩],
   [⟨"Background Worker", "create_type:background_worker"⟩],
   [⟨"Cron Job", "create_type:cron_job"⟩],
   [⟨"Workflow", "create_type:workflow"⟩],
   [⟨"â¬…ï¸ Back", "account"⟩]]

/-! ## bot.py — small pure helpers used by the handlers -/

/-- Python `s.split(c)` on a single-character separator, over the character
list (every `split` in the source uses a one-character separator).  Folds
from the right: `""` yields `[""]`, a separator at either end yields an empty
part there. -/
def splitChar (c : Char) : List Char → List (List Char)
  | [] => [[]]
  | x :: xs =>
    let r := splitChar c xs
    if x == c then [] :: r else (x :: r.headD []) :: r.tail

/-- Python `s.split(c)` returning strings. -/
def pySplitC (s : String) (c : Char) : List String :=
  (splitChar c s.data).map (fun l => ⟨l⟩)

/-- Python `s.strip()`: drop unicode whitespace from both ends. -/
def pyStrip (s : String) : String :=
  ⟨((s.data.dropWhile Char.isWhitespace).reverse.dropWhile
      Char.isWhitespace).reverse⟩

/-- Python `s.startswith(pre)`. -/
def pyStartsWith (s pre : String) : Bool :=
  pre.data.isPrefixOf s.data

/-- Python `s[n:]` (by characters; the dropped command words are ASCII). -/
def pyDrop (s : String) (n : Nat) : String :=
  ⟨s.data.drop n⟩

/-- Python `c in s` for a single character. -/
def pyContains (s : String) (c : Char) : Bool :=
  s.data.contains c

/-- Python index normalisation for slices: a negative index counts from the
end, and both ends are clamped into `[0, len]`. -/
def pyIndex (len : Nat) (i : Int) : Nat :=
  if i < 0 then (Int.ofNat len + i).toNat else min i.toNat len

/-- Python slice `l[a:b]` with int endpoints. -/
def pySlice {α : Type} (l : List α) (a b : Int) : List α :=
  (l.take (pyIndex l.length b)).drop (pyIndex l.length a)

/-- Python `txt.splitlines()` restricted to `"\n"`-separated text (the only
newline the chat transport delivers; a trailing `"\n"` yields an extra empty
line here, which no branch distinguishes since an empty line has no `=`). -/
def splitlines (s : String) : List String :=
  pySplitC s '\n'

/-- Python `s.split(c, 1)` for a one-character separator. -/
def pySplit1 (s : String) (c : Char) : List String :=
  match pySplitC s c with
  | [] => [s]
  | [x] => [x]
  | x :: rest => [x, String.intercalate (String.singleton c) rest]

/-- Python `s.split(c, 2)` for a one-character separator. -/
def pySplit2 (s : String) (c : Char) : List String :=
  match pySplitC s c with
  | [] => [s]
  | [x] => [x]
  | [x, y] => [x, y]
  | x :: y :: rest => [x, y, String.intercalate (String.singleton c) rest]

/-- Decimal digits to a number; `none` on an empty or non-digit input. -/
def digitsToNat : List Char → Option Nat
  | [] => none
  | l =>
    l.foldl
      (fun acc c =>
        match acc with
        | none => none
        | some n => if c.isDigit then some (n * 10 + (c.toNat - 48)) else none)
      (some 0)

/-- Python `int(s)` under `try`/`except`: `none` when it raises.  (`int()`
strips whitespace and accepts an optional sign; the `+` spelling, which no
callback the bot itself emits contains, is not modelled.) -/
def pyInt? (s : String) : Option Int :=
  match (pyStrip s).data with
  | '-' :: rest => (digitsToNat rest).map (fun n => -(n : Int))
  | l => (digitsToNat l).map (fun n => (n : Int))

/-- The env-var block parser of the `env_add` branch (bot.py lines 647-653):
each line is split on the first `=`; lines without `=` are skipped; key and
value are stripped; an empty key is skipped; pairs accumulate into an
insertion-ordered dict. -/
def parse_env_lines (txt : String) : List (String × String) :=
  (splitlines txt).foldl
    (fun kv line =>
      if pyContains line '=' then
        let parts := pySplitC line '='
        let k := pyStrip (parts.headD "")
        let v := pyStrip (String.intercalate "=" parts.tail)
        if k != "" then dictSet kv k v else kv
      else kv)
    []

/-- The maximum display length before truncation (the literal `3900` of
bot.py lines 397 and 602). -/
def MAX_TG_TEXT : Nat := 3900

/-- The truncation notice prefix (bot.py lines 399 and 603). -/
def TRUNC_NOTICE : String := "(truncated)\n"

/-- Python `s[-n:]` on a string, for `n ≤ len s`. -/
def tailChars (s : String) (n : Nat) : String :=
  ⟨s.data.drop (s.data.length - n)⟩

/-- The truncation applied to long log text (bot.py lines 397-399 and
602-603): `if len(text) > 3900: text = text[-3900:]; text = "(truncated)\n" + text`. -/
def truncate_log (text : String) : String :=
  if text.length > MAX_TG_TEXT then TRUNC_NOTICE ++ tailChars text MAX_TG_TEXT
  else text

/-- One formatted log line (bot.py lines 392-395 and 597-600):
`f"[{ts}] {stream}: {msg}"` with the `or`-chains over candidate fields. -/
def format_log_line (l : JVal) : String :=
  let ts := JVal.pyOr (l.getv "timestamp") (JVal.pyOr (l.getv "time") (.str ""))
  let stream := JVal.pyOr (l.getv "stream") (JVal.pyOr (l.getv "type") (.str ""))
  let msg := JVal.pyOr (l.getv "message") (JVal.pyOr (l.getv "log") (.str (pyStr l)))
  "[" ++ pyStr ts ++ "] " ++ pyStr stream ++ ": " ++ pyStr msg

/-! ## bot.py — private text handler -/

/-- Result of one run of a message handler: the texts passed to `safe_reply`
in order, the state afterwards, and the HTTP requests issued. -/
structure HandlerResult where
  replies : List String
  st : BotState
  calls : List HttpRequest

/-- The pending-flows section of `private_text_handler` (bot.py lines
607-684), reached when the text matches none of the command prefixes.  The
pending entry is popped (removed) at entry; a pending `"create"` entry
matches none of the three branches, so control falls through to the final
fallback reply with the popped entry lost. -/
def handle_pending (t : Transport) (st : BotState) (uid txt : String) :
    HandlerResult :=
  let (pending?, st1) := pop_pending st uid
  match pending? with
  | some (.set_repo sid) =>
    let parts := (pySplitC txt '|').map pyStrip
    let repo := parts.headD ""
    let branch :=
      if 2 ≤ parts.length ∧ parts.getD 1 "" ≠ "" then parts.getD 1 "" else "main"
    let start_cmd : Option String :=
      if 3 ≤ parts.length ∧ parts.getD 2 "" ≠ "" then some (parts.getD 2 "") else none
    let api_key? := get_user_key st1 uid
    if !truthyS api_key? then ⟨["Please /login first."], st1, []⟩
    else
      let api : RenderAPI := ⟨api_key?⟩
      let update : List (String × JVal) :=
        (if repo != "" then [("repo", .str repo)] else [])
        ++ (if branch != "" then [("branch", .str branch)] else [])
        ++ (match start_cmd with
            | some c => [("startCommand", .str c)]
            | none => [])
      if update.isEmpty then ⟨["No update provided. Cancelled."], st1, []⟩
      else
        let ((ok, res), calls) := RenderAPI.update_service t api sid update
        if ok then
          ⟨["ğŸ”§ Updating service...", "âœ… Service updated."],
           set_repo_mapping st1 sid repo branch start_cmd, calls⟩
        else
          ⟨["ğŸ”§ Updating service...", "âŒ Update failed.\n" ++ pyStr res],
           st1, calls⟩
  | some (.env_add sid) =>
    let api_key? := get_user_key st1 uid
    if !truthyS api_key? then ⟨["Please /login first."], st1, []⟩
    else
      let kv := parse_env_lines txt
      if kv.isEmpty then
        ⟨["No valid KEY=VALUE lines found. Cancelled."], st1, []⟩
      else
        let api : RenderAPI := ⟨api_key?⟩
        let ((ok, res), calls) := RenderAPI.upsert_env_vars t api sid kv
        if ok then ⟨["âœ… Env vars upserted."], st1, calls⟩
        else ⟨["âŒ Failed to upsert env vars.\n" ++ pyStr res], st1, calls⟩
  | some (.env_del sid) =>
    let key_name := pyStrip txt
    if key_name == "" then ⟨["No key provided. Cancelled."], st1, []⟩
    else
      let api_key? := get_user_key st1 uid
      if !truthyS api_key? then ⟨["Please /login first."], st1, []⟩
      else
        let api : RenderAPI := ⟨api_key?⟩
        let ((ok, res), calls) := RenderAPI.delete_env_var t api sid key_name
        if ok then
          ⟨["âœ… Env var <b>" ++ html_escapeS key_name ++ "</b> deleted."],
           st1, calls⟩
        else ⟨["âŒ Delete failed.\n" ++ pyStr res], st1, calls⟩
  | some (.create _) =>
    ⟨["Unrecognized input. Use /help or inline menu."], st1, []⟩
  | none =>
    ⟨["Unrecognized input. Use /help or inline menu."], st1, []⟩

/-- `private_text_handler` (bot.py lines 481-684): the quick-command branches
(`/create`, `/setrepo`, `/login`, `/logs`), then the pending flows
(`handle_pending`), then the fallback.  The text is stripped on entry, so in
the `/login` and `/logs` branches `txt.split(maxsplit=1)` always has a second
part, modelled as the trimmed remainder after the command word. -/
def private_text_handler (t : Transport) (st : BotState) (uid text : String) :
    HandlerResult :=
  let txt := pyStrip text
  if pyStartsWith txt "/create " then
    let parts := (pySplitC (pyDrop txt 8) '|').map pyStrip
    let name := parts.headD ""
    let repo : Option String :=
      if 2 ≤ parts.length ∧ parts.getD 1 "" ≠ "" then some (parts.getD 1 "") else none
    let branch :=
      if 3 ≤ parts.length ∧ parts.getD 2 "" ≠ "" then parts.getD 2 "" else "main"
    let start_cmd : Option String :=
      if 4 ≤ parts.length ∧ parts.getD 3 "" ≠ "" then some (parts.getD 3 "") else none
    let (pending?, st1) := pop_pending st uid
    let service_type? : Option String :=
      match pending? with
      | some (.create stype) => some stype
      | _ => none
    if !truthyS service_type? then
      ⟨["Please first select service type with the inline menu (/start -> Create App) or provide type in the command."],
       st1, []⟩
    else
      let api_key? := get_user_key st1 uid
      if !truthyS api_key? then
        ⟨["Please /login first with /login <RENDER_API_KEY>"], st1, []⟩
      else
        let api : RenderAPI := ⟨api_key?⟩
        let ((owner_id, raw), calls1) := RenderAPI.resolve_owner_id t api
        if !owner_id.truthy then
          ⟨["âŒ Could not determine ownerId. Raw response: " ++ pyStr raw],
           st1, calls1⟩
        else
          let ((ok, res), calls2) :=
            RenderAPI.create_service t api owner_id name (service_type?.getD "")
              repo branch none start_cmd none none none
          if ok then
            let sid := JVal.pyOr (res.getv "id")
              ((JVal.pyOr (res.getv "service") (.obj [])).getv "id")
            let st2 :=
              if sid.truthy then
                set_repo_mapping st1 (pyStr sid) (repo.getD "") branch start_cmd
              else st1
            let url : JVal :=
              match res with
              | .obj _ => JVal.pyOr (res.getv "defaultDomain")
                  ((JVal.pyOr (res.getv "service") (.obj [])).getv "defaultDomain")
              | _ => .str ""
            ⟨["ğŸ›  Creating service...",
              "âœ… Created service.\nID: <code>" ++ html_escapeS (pyStr sid)
                ++ "</code>\nURL: " ++ html_escapeS (pyStr url)],
             st2, calls1 ++ calls2⟩
          else
            ⟨["ğŸ›  Creating service...", "âŒ Create failed.\n" ++ pyStr res],
             st1, calls1 ++ calls2⟩
  else if pyStartsWith txt "/setrepo " then
    let parts := (pySplitC (pyDrop txt 9) '|').map pyStrip
    if parts.length < 2 then
      ⟨["Usage: /setrepo <service_id> | <repo> | <branch optional> | <startCommand optional>"],
       st, []⟩
    else
      let sid := parts.headD ""
      let repo := parts.getD 1 ""
      let branch :=
        if 3 ≤ parts.length ∧ parts.getD 2 "" ≠ "" then parts.getD 2 "" else "main"
      let start_cmd : Option String :=
        if 4 ≤ parts.length ∧ parts.getD 3 "" ≠ "" then some (parts.getD 3 "") else none
      let api_key? := get_user_key st uid
      if !truthyS api_key? then ⟨["Please /login first."], st, []⟩
      else
        let api : RenderAPI := ⟨api_key?⟩
        let update : List (String × JVal) :=
          (if repo != "" then [("repo", .str repo)] else [])
          ++ (if branch != "" then [("branch", .str branch)] else [])
          ++ (match start_cmd with
              | some c => [("startCommand", .str c)]
              | none => [])
        if update.isEmpty then ⟨["Nothing to update."], st, []⟩
        else
          let ((ok, res), calls) := RenderAPI.update_service t api sid update
          if ok then
            ⟨["ğŸ”§ Updating service...", "âœ… Service updated."],
             set_repo_mapping st sid repo branch start_cmd, calls⟩
          else
            ⟨["ğŸ”§ Updating service...", "âŒ Update failed.\n" ++ pyStr res],
             st, calls⟩
  else if pyStartsWith txt "/login " then
    let api_key := pyStrip (pyDrop txt 7)
    let api : RenderAPI := ⟨some api_key⟩
    let ((ok, owners_d), calls) := RenderAPI.owners t api
    if !ok then
      ⟨["âŒ Invalid key or API unreachable.\n" ++ pyStr owners_d], st, calls⟩
    else
      ⟨["âœ… API key saved. Use inline menu or /create."],
       set_user_key st uid api_key, calls⟩
  else if pyStartsWith txt "/logs " then
    let sid := pyStrip (pyDrop txt 6)
    let api_key? := get_user_key st uid
    if !truthyS api_key? then ⟨["Please /login first."], st, []⟩
    else
      let api : RenderAPI := ⟨api_key?⟩
      let ((ok, logs_resp), calls) := RenderAPI.get_service_logs t api sid true 200
      if !ok then
        ⟨["âŒ Logs fetch failed.\n" ++ pyStr logs_resp], st, calls⟩
      else
        -- a dict whose "logs" value is not a list would raise a TypeError at
        -- the slice in the source; it is folded into the unexpected-format
        -- reply here and never exercised by a theorem
        let logs_list? : Option (List JVal) :=
          match logs_resp with
          | .obj fs =>
            match JVal.jget fs "logs" with
            | some (.arr l) => some l
            | _ => none
          | .arr l => some l
          | _ => none
        match logs_list? with
        | none => ⟨["âŒ Unexpected logs format.\n" ++ pyStr logs_resp], st, calls⟩
        | some logs_list =>
          let formatted :=
            (pySlice logs_list (-200) (Int.ofNat logs_list.length)).map format_log_line
          let text1 :=
            String.intercalate "\n"
              (pySlice formatted (-200) (Int.ofNat formatted.length))
          let text2 := truncate_log text1
          ⟨["<b>Logs</b>\n<pre>" ++ html_escapeS text2 ++ "</pre>"], st, calls⟩
  else handle_pending t st uid txt

/-! ## bot.py — callback-query handler -/

/-- Result of one run of `on_cb`: the `(text, reply_markup)` pairs passed to
`safe_edit` in order, the state afterwards, and the HTTP requests issued. -/
structure CbResult where
  edits : List (String × Option Keyboard)
  st : BotState
  calls : List HttpRequest

/-- Python iteration over a JSON-derived value: a list iterates its elements,
a dict its keys.  (Iterating anything else raises in Python; that branch is
never exercised by a theorem.) -/
def pyIter : JVal → List JVal
  | .arr l => l
  | .obj fs => fs.map (fun p => .str p.1)
  | _ => []

/-- The status candidate chain used by the `svc:` and `svc_status:` branches:
`(service.get("serviceDetails") or {}).get("status") or service.get("status") or "-"`. -/
def statusOf (service : JVal) : JVal :=
  JVal.pyOr ((JVal.pyOr (service.getv "serviceDetails") (.obj [])).getv "status")
    (JVal.pyOr (service.getv "status") (.str "-"))

/-- `on_cb` (bot.py lines 230-478): dispatch on `callback.data`, with
`api = RenderAPI(api_key) if api_key else None` computed once at entry. -/
def on_cb (t : Transport) (st : BotState) (uid data : String) : CbResult :=
  let api? : Option RenderAPI :=
    match get_user_key st uid with
    | some k => if k != "" then some ⟨some k⟩ else none
    | none => none
  if data = "account" then
    match api? with
    | none => ⟨[("Please /login first.", some main_menu)], st, []⟩
    | some api =>
      let ((ok, owners_d), calls) := RenderAPI.owners t api
      if !ok then
        ⟨[("âŒ Could not fetch owners.\n" ++ pyStr owners_d, some main_menu)],
         st, calls⟩
      else
        let out : List String :=
          match owners_d with
          | .arr items =>
            items.map (fun item =>
              let owner := item.getv "owner"
              "<b>" ++ html_escapeV (owner.getv "name") ++ "</b>\nType: "
                ++ html_escapeV (owner.getv "type") ++ "\nID: <code>"
                ++ html_escapeV (owner.getv "id") ++ "</code>")
          | _ => [html_escapeS (pyStr owners_d)]
        ⟨[("ğŸ‘¤ Account / Owners:\n\n" ++ String.intercalate "\n\n" out,
           some main_menu)], st, calls⟩
  else if data = "list_apps" then
    match api? with
    | none => ⟨[("Please /login first.", some main_menu)], st, []⟩
    | some api =>
      let ((ok, svcs), calls) := RenderAPI.list_services t api 50
      if !ok then
        ⟨[("âŒ Failed to list services.\n" ++ pyStr svcs, some main_menu)],
         st, calls⟩
      else
        let items : JVal :=
          match svcs with
          | .arr _ => svcs
          | .obj _ => svcs.getv "services"
          | _ => .arr []
        if !items.truthy then
          ⟨[("No services found.", some main_menu)], st, calls⟩
        else
          let rows : Keyboard :=
            (pyIter items).map (fun s =>
              let svc := if s.hasKey "service" then s.getv "service" else s
              let sid :=
                match svc with
                | .obj _ => svc.getv "id"
                | _ => s.getv "id"
              let name : JVal :=
                match svc with
                | .obj _ => svc.getv "name"
                | _ => .str (pyStr s)
              let url := JVal.pyOr (svc.getv "defaultDomain")
                (JVal.pyOr ((JVal.pyOr (svc.getv "serviceDetails") (.obj [])).getv
                    "defaultDomain") (.str ""))
              let label := "ğŸ“± " ++ pyStr name
                ++ (if url.truthy then " â†’ " ++ pyStr url else "")
              [⟨label, "svc:" ++ pyStr sid⟩])
          ⟨[("ğŸ“‹ <b>Your Services</b>:",
             some (rows ++ [[⟨"â¬…ï¸ Back", "account"⟩]]))], st, calls⟩
  else if data = "create_root" then
    ⟨[("Select a service type to create:", some service_type_kb)], st, []⟩
  else if pyStartsWith data "create_type:" then
    let stype := (pySplit1 data ':').getD 1 ""
    if stype ∉ VALID_SERVICE_TYPES then
      ⟨[("Invalid service type selected.", some main_menu)], st, []⟩
    else
      ⟨[("Selected <b>" ++ html_escapeS stype
          ++ "</b>.\nNow send create details in this private chat using:\n\n"
          ++ "`/create <NAME> | <GIT_REPO or blank> | <branch optional> | <startCommand optional>`\n\n"
          ++ "For static_site you may omit repo if creating an empty site.\nExample:\n`/create my-app | https://github.com/me/repo | main | npm start`",
         some main_menu)],
       set_pending st uid (.create stype), []⟩
  else if data = "repo_mappings" then
    let rows : Keyboard :=
      st.repos.map (fun p =>
        [⟨p.1 ++ " â€¢ " ++ p.2.repo ++ "@" ++ p.2.branch, "repo_info:" ++ p.1⟩])
    if rows.isEmpty then
      ⟨[("No repo mappings stored.", some main_menu)], st, []⟩
    else
      ⟨[("<b>Repo mappings</b>:", some (rows ++ [[⟨"â¬…ï¸ Back", "account"⟩]]))],
       st, []⟩
  else if pyStartsWith data "repo_info:" then
    let sid := (pySplit1 data ':').getD 1 ""
    match get_repo_mapping st sid with
    | none => ⟨[("No mapping found.", some main_menu)], st, []⟩
    | some mp =>
      ⟨[("<b>Service " ++ sid ++ "</b>\nRepo: <code>" ++ html_escapeS mp.repo
          ++ "</code>\nBranch: <code>" ++ html_escapeS mp.branch
          ++ "</code>\nStart: <code>" ++ html_escapeO mp.startCommand ++ "</code>",
         some [[⟨"â¬…ï¸ Back", "repo_mappings"⟩]])], st, []⟩
  else if pyStartsWith data "svc:" then
    let sid := (pySplit1 data ':').getD 1 ""
    match api? with
    | none => ⟨[("Please /login first.", some main_menu)], st, []⟩
    | some api =>
      let ((ok, svc), calls) := RenderAPI.get_service t api sid
      if !ok then
        ⟨[("âŒ Could not fetch service:\n" ++ pyStr svc, some main_menu)],
         st, calls⟩
      else
        let service := if svc.hasKey "service" then svc.getv "service" else svc
        let name : JVal :=
          match service with
          | .obj _ => service.getv "name"
          | _ => .str (pyStr service)
        let stype := JVal.pyOr (service.getv "type") (.str "-")
        let status := statusOf service
        let url := JVal.pyOr (service.getv "defaultDomain")
          (JVal.pyOr ((JVal.pyOr (service.getv "serviceDetails") (.obj [])).getv
              "defaultDomain") (.str "(no public url)"))
        ⟨[("<b>" ++ html_escapeV name ++ "</b>\nID: <code>" ++ html_escapeS sid
            ++ "</code>\nType: " ++ html_escapeV stype ++ "\nStatus: "
            ++ html_escapeV status ++ "\nURL: " ++ html_escapeV url,
           some (service_menu sid))], st, calls⟩
  else if pyStartsWith data "svc_status:" then
    let sid := (pySplit1 data ':').getD 1 ""
    match api? with
    | none => ⟨[("Please /login first.", some main_menu)], st, []⟩
    | some api =>
      let ((ok, svc), calls) := RenderAPI.get_service t api sid
      if !ok then
        ⟨[("âŒ Could not fetch status.\n" ++ pyStr svc, some (service_menu sid))],
         st, calls⟩
      else
        let service := if svc.hasKey "service" then svc.getv "service" else svc
        ⟨[("<b>Status</b>\n" ++ html_escapeV (statusOf service),
           some (service_menu sid))], st, calls⟩
  else if pyStartsWith data "svc_logs:" then
    match pySplit2 data ':' with
    | [_, sid, page_s] =>
      (match pyInt? page_s with
       | none => ⟨[("Invalid log request.", some main_menu)], st, []⟩
       | some page =>
         match api? with
         | none => ⟨[("Please /login first.", some main_menu)], st, []⟩
         | some api =>
           let lim : Int := 50
           let ((ok, logs_resp), calls) :=
             RenderAPI.get_service_logs t api sid true (lim * page)
           if !ok then
             ⟨[("âŒ Logs fetch failed.\n" ++ pyStr logs_resp,
                some (service_menu sid))], st, calls⟩
           else
             let logs_list? : Option (List JVal) :=
               match logs_resp with
               | .obj fs =>
                 match JVal.jget fs "logs" with
                 | some (.arr l) => some l
                 | _ => none
               | .arr l => some l
               | _ => none
             match logs_list? with
             | none =>
               ⟨[("âŒ Unexpected logs format.\n" ++ pyStr logs_resp,
                  some (service_menu sid))], st, calls⟩
             | some logs_list =>
               let len : Int := Int.ofNat logs_list.length
               let start := max 0 (len - lim * page)
               let stop := len - lim * (page - 1)
               let page_lines := pySlice logs_list start stop
               let text1 :=
                 if page_lines.isEmpty then "(no logs for this page)"
                 else
                   let formatted := page_lines.map format_log_line
                   String.intercalate "\n"
                     (pySlice formatted (-lim) (Int.ofNat formatted.length))
               let text2 := truncate_log text1
               ⟨[("<b>Logs</b>\n<pre>" ++ html_escapeS text2 ++ "</pre>",
                  some (logs_nav sid page))], st, calls⟩)
    | _ => ⟨[("Invalid log request.", some main_menu)], st, []⟩
  else if pyStartsWith data "svc_restart:" then
    let sid := (pySplit1 data ':').getD 1 ""
    match api? with
    | none => ⟨[("Please /login first.", some (service_menu sid))], st, []⟩
    | some api =>
      let ((ok, res), calls) := RenderAPI.restart_service t api sid
      if ok then
        ⟨[("â³ Restarting...", none), ("âœ… Restart triggered.", some (service_menu sid))],
         st, calls⟩
      else
        ⟨[("â³ Restarting...", none),
          ("âŒ Restart failed.\n" ++ pyStr res, some (service_menu sid))],
         st, calls⟩
  else if pyStartsWith data "svc_deploy:" then
    let sid := (pySplit1 data ':').getD 1 ""
    match api? with
    | none => ⟨[("Please /login first.", some (service_menu sid))], st, []⟩
    | some api =>
      let ((ok, res), calls) := RenderAPI.trigger_deploy t api sid false
      if ok then
        let dep_id : JVal :=
          match res with
          | .obj _ => res.getv "id"
          | _ => .str "-"
        ⟨[("ğŸš€ Triggering deploy...", none),
          ("âœ… Deploy triggered.\nDeploy ID: <code>"
            ++ html_escapeS (pyStr dep_id) ++ "</code>", some (service_menu sid))],
         st, calls⟩
      else
        ⟨[("ğŸš€ Triggering deploy...", none),
          ("âŒ Deploy failed.\n" ++ pyStr res, some (service_menu sid))],
         st, calls⟩
  else if pyStartsWith data "svc_repo_set:" then
    let sid := (pySplit1 data ':').getD 1 ""
    ⟨[("âœï¸ Send in private chat:\n`<repo_url> | <branch optional> | <startCommand optional>`\nOr use /setrepo <service_id> | <repo> | <branch> | <startCommand>",
       some (service_menu sid))],
     set_pending st uid (.set_repo sid), []⟩
  else if pyStartsWith data "svc_env:" then
    let sid := (pySplit1 data ':').getD 1 ""
    match api? with
    | none => ⟨[("Please /login first.", some (service_menu sid))], st, []⟩
    | some api =>
      let ((ok, res), calls) := RenderAPI.list_env_vars t api sid
      if !ok then
        ⟨[("âŒ Could not list env vars.\n" ++ pyStr res, some (service_menu sid))],
         st, calls⟩
      else
        let pairs : JVal :=
          if res.hasKey "envVars" then res.getv "envVars"
          else match res with
               | .arr _ => res
               | _ => .arr []
        let lines : List String :=
          (pyIter pairs).map (fun p =>
            let k := JVal.pyOr (p.getv "key")
              (JVal.pyOr (p.getv "name") (p.getv "keyName"))
            let v := JVal.pyOr (p.getv "value") (.str "")
            html_escapeV k ++ " = " ++ html_escapeV v)
        let kb : Keyboard :=
          [[⟨"â• Add/Update", "env_add:" ++ sid⟩],
           [⟨"â– Delete", "env_del:" ++ sid⟩],
           [⟨"â¬…ï¸ Back", "svc:" ++ sid⟩]]
        ⟨[("<b>Env Vars</b>\n"
            ++ (if lines.isEmpty then "(none)" else String.intercalate "\n" lines),
           some kb)], st, calls⟩
  else if pyStartsWith data "env_add:" then
    let sid := (pySplit1 data ':').getD 1 ""
    ⟨[("Send env var lines (KEY=VALUE) in private chat. Lines without '=' will be ignored.",
       some (service_menu sid))],
     set_pending st uid (.env_add sid), []⟩
  else if pyStartsWith data "env_del:" then
    let sid := (pySplit1 data ':').getD 1 ""
    ⟨[("Send the ENV KEY (exact name) you want to delete in private chat.",
       some (service_menu sid))],
     set_pending st uid (.env_del sid), []⟩
  else
    ⟨[("Unknown action. Use /start", some main_menu)], st, []⟩

/-! ## Outcome classification (spec taxonomy vs. descriptor shapes) -/

/-- The class of one remote call attempt: success (2xx), an HTTP error with
its status (the spec's `Rejected` for 4xx, `Unreachable` for 5xx), or a
network-level failure (the spec's `Unreachable`). -/
inductive OutcomeClass where
  | success : OutcomeClass
  | httpError : (status : Nat) → OutcomeClass
  | netError : OutcomeClass
deriving DecidableEq

/-- The class of a transport outcome, read off the wire. -/
def transportClass : TransportOutcome → OutcomeClass
  | .requestError _ => .netError
  | .response st _ _ => if 200 ≤ st ∧ st < 300 then .success else .httpError st

/-- The class recovered from a returned `(ok, data)` pair alone, by the shape
of the error descriptor: `{"error": ...}` is the network-failure shape,
`{"status_code": ..., "body": ...}` the HTTP-error shape.  The catch-all
branch is unreachable for outputs of `requestResult`. -/
def resultClass : Bool × JVal → OutcomeClass
  | (true, _) => .success
  | (false, d) =>
    match d with
    | .obj [("error", _)] => .netError
    | .obj [("status_code", .num st), ("body", _)] => .httpError st.toNat
    | _ => .netError

/-! ## Spec-side selectors for workspace resolution -/

/-- `item.get("owner") if isinstance(item, dict) else None`. -/
def ownerOf (item : JVal) : JVal :=
  match item with
  | .obj fs => (JVal.jget fs "owner").getD .null
  | _ => .null

/-- Whether an item carries a truthy owner of the given type — the loop
condition of `resolve_owner_id`. -/
def itemHasOwnerType (tname : String) (item : JVal) : Bool :=
  (ownerOf item).truthy && RenderAPI.ownerTypeIs (ownerOf item) tname

/-- Guard for the modelling gap of `JVal.getv`: in the source a truthy
non-dict `owner` value would raise `AttributeError` at `owner.get("type")`;
this predicate says no item has one (true of every real `/owners` payload,
whose owners are objects). -/
def ownerCrashFree (items : List JVal) : Bool :=
  items.all fun item =>
    match ownerOf item with
    | .obj _ => true
    | ow => !ow.truthy

/-! ## Concrete example inputs used by witnesses and counterexamples -/

/-- A transport on which every request raises `httpx.RequestError`. -/
def exTransport : Transport := fun _ => .requestError "connection refused"

/-- A bot state with no credentials, no repo mappings, no pending flows. -/
def exEmptyState : BotState := ⟨fun _ => none, [], fun _ => none⟩

/-- A bot state where user `"1"` has a stored credential and a pending
`env_add` flow for service `"s1"`. -/
def exEnvAddState : BotState :=
  ⟨fun u => if u = "1" then some "KEY" else none, [],
   fun u => if u = "1" then some (.env_add "s1") else none⟩

/-- A transport on which `POST /services/s1/restart` returns 404 and every
other request succeeds with status 200. -/
def exRestartTransport : Transport := fun req =>
  if req.path = "/services/s1/restart" then .response 404 none "not found"
  else .response 200 (some .null) ""

/-- An `/owners` payload with one personal owner followed by two team
owners. -/
def exOwnersItems : List JVal :=
  [.obj [("owner", .obj [("type", .str "user"), ("id", .str "usr-1")])],
   .obj [("owner", .obj [("type", .str "team"), ("id", .str "tm-1")])],
   .obj [("owner", .obj [("type", .str "team"), ("id", .str "tm-2")])]]

/-- A transport that answers `GET /owners` with `exOwnersItems`. -/
def exOwnersTransport : Transport := fun req =>
  if req.path = "/owners" then .response 200 (some (.arr exOwnersItems)) ""
  else .requestError "unreachable"

/-- A 3901-character text, one character over the display maximum. -/
def exLongText : String := ⟨List.replicate 3901 'a'⟩

/-! ## Claims -/

set_option maxRecDepth 8000

/-- C1: every `_request` invocation returns a `(ok, data)` pair (totality is
by construction of `requestResult`, mirroring that every control path of the
source returns): a 2xx response yields `ok = true` with the parsed payload; a
non-2xx response yields `ok = false` with a descriptor carrying the status
and the body; a raised `httpx.RequestError` yields `ok = false` with the
network-error descriptor.  The class of the outcome — success, HTTP error
with its status (the spec's `Rejected` for 4xx, `Unreachable` for 5xx), or
network failure (`Unreachable`) — is recoverable from the returned pair
alone (`resultClass`), so the three outcome classes are distinguished for
every call. -/
theorem claim_C1_request_outcome_classes (o : TransportOutcome) :
    resultClass (RenderAPI.requestResult o) = transportClass o
    ∧ ((RenderAPI.requestResult o).1 = true ↔ transportClass o = .success)
    ∧ (∀ emsg, o = .requestError emsg →
        RenderAPI.requestResult o = (false, .obj [("error", .str emsg)]))
    ∧ (∀ st j s, o = .response st j s → 200 ≤ st → st < 300 →
        RenderAPI.requestResult o = (true, RenderAPI.parseBody j s))
    ∧ (∀ st j s, o = .response st j s → ¬(200 ≤ st ∧ st < 300) →
        RenderAPI.requestResult o =
          (false, .obj [("status_code", .num st), ("body", RenderAPI.parseBody j s)])) := by
  cases o with
  | requestError m =>
    refine ⟨rfl, by simp [RenderAPI.requestResult, transportClass, resultClass], ?_, ?_, ?_⟩
    · intro emsg h
      cases h
      rfl
    · intro st j s h
      exact absurd h (by simp)
    · intro st j s h
      exact absurd h (by simp)
  | response st j s =>
    by_cases h2 : 200 ≤ st ∧ st < 300
    · refine ⟨?_, ?_, ?_, ?_, ?_⟩
      · simp [RenderAPI.requestResult, transportClass, resultClass, h2]
      · simp [RenderAPI.requestResult, transportClass, h2]
      · intro emsg h
        exact absurd h (by simp)
      · intro st' j' s' h _ _
        cases h
        simp [RenderAPI.requestResult, h2]
      · intro st' j' s' h hn
        cases h
        exact absurd h2 hn
    · refine ⟨?_, ?_, ?_, ?_, ?_⟩
      · simp [RenderAPI.requestResult, transportClass, resultClass, h2]
      · simp [RenderAPI.requestResult, transportClass, h2]
      · intro emsg h
        exact absurd h (by simp)
      · intro st' j' s' h hle hlt
        cases h
        exact absurd ⟨hle, hlt⟩ h2
      · intro st' j' s' h _
        cases h
        simp [RenderAPI.requestResult, h2]

/-- Witness for C1: the classification at a raised `RequestError` and at a
503 response. -/
theorem claim_C1_witness :
    RenderAPI.requestResult (.requestError "timeout")
      = (false, .obj [("error", .str "timeout")])
    ∧ RenderAPI.requestResult (.response 503 none "oops")
      = (false, .obj [("status_code", .num 503), ("body", .str "oops")]) := by
  constructor
  · exact (claim_C1_request_outcome_classes (.requestError "timeout")).2.2.1 "timeout" rfl
  · have h := (claim_C1_request_outcome_classes (.response 503 none "oops")).2.2.2.2
      503 none "oops" rfl (by norm_num)
    simpa [RenderAPI.parseBody] using h

/-- C2: `set_pending` unconditionally overwrites the single pending slot of
the user with exactly the new entry (no field of the old entry survives,
since the whole entry is replaced), changes no other user's slot and no other
part of the state, and is total (no error on overwrite).  At most one pending
action per user holds structurally: the store maps each user id to at most
one entry. -/
theorem claim_C2_set_pending_overwrites (st : BotState) (uid : String) (e : PendEntry) :
    (set_pending st uid e).pending uid = some e
    ∧ (∀ u, u ≠ uid → (set_pending st uid e).pending u = st.pending u)
    ∧ (set_pending st uid e).api_keys = st.api_keys
    ∧ (set_pending st uid e).repos = st.repos := by
  refine ⟨by simp [set_pending], fun u h => by simp [set_pending, h], rfl, rfl⟩

/-- Witness for C2: overwriting user 1's pending `env_add` flow with a
`create` flow leaves exactly the new entry and does not touch user 2. -/
theorem claim_C2_witness :
    (set_pending exEnvAddState "1" (.create "web_service")).pending "1"
      = some (.create "web_service")
    ∧ (set_pending exEnvAddState "1" (.create "web_service")).pending "2"
      = exEnvAddState.pending "2" := by
  constructor
  · exact (claim_C2_set_pending_overwrites exEnvAddState "1" (.create "web_service")).1
  · exact (claim_C2_set_pending_overwrites exEnvAddState "1" (.create "web_service")).2.1 "2"
      (by decide)

/-- C3 (counterexample): the claim says a failed validation leaves the
PendingAction pending with its state unchanged; in the code
`private_text_handler` pops the pending entry before dispatch and the
`env_add` branch does not restore it on a reply with zero valid `KEY=VALUE`
lines — it answers "No valid KEY=VALUE lines found. Cancelled." and the slot
is empty afterwards, not still `env_add s1`. -/
theorem claim_C3_counterexample :
    exEnvAddState.pending "1" = some (.env_add "s1")
    ∧ (private_text_handler exTransport exEnvAddState "1" "this reply has no pairs").st.pending "1"
        ≠ some (.env_add "s1")
    ∧ (private_text_handler exTransport exEnvAddState "1" "this reply has no pairs").st.pending "1"
        = none
    ∧ (private_text_handler exTransport exEnvAddState "1" "this reply has no pairs").replies
        = ["No valid KEY=VALUE lines found. Cancelled."] := by
  refine ⟨rfl, by decide, rfl, rfl⟩

/-- C3 (amended): when an `env_add` reply fails the step's local validation
(zero valid `KEY=VALUE` lines), no remote call is issued and the user is
told, but the flow does not stay at the current step: the pending action was
popped on entry and is not restored, so the flow is cancelled (the message
says so) and the slot is empty afterwards. -/
theorem claim_C3_validation_failure_cancels (t : Transport) (st : BotState)
    (uid txt sid key : String)
    (hpend : st.pending uid = some (.env_add sid))
    (hk : st.api_keys uid = some key) (hkne : key ≠ "")
    (hparse : parse_env_lines txt = []) :
    (handle_pending t st uid txt).replies
      = ["No valid KEY=VALUE lines found. Cancelled."]
    ∧ (handle_pending t st uid txt).st.pending uid = none
    ∧ (handle_pending t st uid txt).calls = [] := by
  unfold handle_pending pop_pending
  rw [hpend]
  simp only [get_user_key]
  rw [hk, hparse]
  simp [truthyS, hkne]

/-- Witness for the amended C3 at a concrete state and reply. -/
theorem claim_C3_witness :
    (handle_pending exTransport exEnvAddState "1" "no pairs in here").replies
      = ["No valid KEY=VALUE lines found. Cancelled."]
    ∧ (handle_pending exTransport exEnvAddState "1" "no pairs in here").st.pending "1" = none
    ∧ (handle_pending exTransport exEnvAddState "1" "no pairs in here").calls = [] :=
  claim_C3_validation_failure_cancels exTransport exEnvAddState "1" "no pairs in here" "s1"
    "KEY" rfl rfl (by decide) rfl

/-- C5: in the `env_add` step each line is parsed independently on the first
`=` (see `parse_env_lines`); lines without `=` are skipped without failing
the batch (fourth conjunct); with zero valid pairs no remote call is issued
and the "no valid pairs" response is returned; with at least one valid pair
exactly one `PUT .../env-vars` upsert call is issued carrying all parsed
pairs; and the two-line scenario `MY_KEY=123` / `OTHER=abc` parses to both
pairs (third conjunct), which by the second conjunct travel in one call. -/
theorem claim_C5_env_add_batch (t : Transport) (st : BotState) (uid txt sid key : String)
    (hpend : st.pending uid = some (.env_add sid))
    (hk : st.api_keys uid = some key) (hkne : key ≠ "") :
    (parse_env_lines txt = [] →
      (handle_pending t st uid txt).calls = []
      ∧ (handle_pending t st uid txt).replies
          = ["No valid KEY=VALUE lines found. Cancelled."])
    ∧ (parse_env_lines txt ≠ [] →
      (handle_pending t st uid txt).calls =
        [⟨"PUT", "/services/" ++ sid ++ "/env-vars", [],
          some (.arr ((parse_env_lines txt).map fun p =>
            .obj [("key", .str p.1), ("value", .str p.2)])),
          some key⟩])
    ∧ parse_env_lines "MY_KEY=123\nOTHER=abc" = [("MY_KEY", "123"), ("OTHER", "abc")]
    ∧ parse_env_lines "MY_KEY=123\nno separator line\nOTHER=abc"
        = [("MY_KEY", "123"), ("OTHER", "abc")] := by
  refine ⟨?_, ?_, by decide, by decide⟩
  · intro hparse
    unfold handle_pending pop_pending
    rw [hpend]
    simp only [get_user_key]
    rw [hk, hparse]
    simp [truthyS, hkne]
  · intro hparse
    have hne : (parse_env_lines txt).isEmpty = false := by
      cases hp : parse_env_lines txt with
      | nil => exact absurd hp hparse
      | cons a l => rfl
    have hkb : (key != "") = true := by simp [bne_iff_ne, hkne]
    unfold handle_pending pop_pending
    rw [hpend]
    simp only [get_user_key]
    rw [hk]
    simp only [truthyS, RenderAPI.upsert_env_vars, RenderAPI.request, hne, hkb,
      Bool.not_true, Bool.false_eq_true, if_false]
    split <;> rfl

/-- Witness for C5: a one-pair submission issues exactly the one upsert
call. -/
theorem claim_C5_witness :
    (handle_pending exTransport exEnvAddState "1" "A=1").calls =
      [⟨"PUT", "/services/s1/env-vars", [],
        some (.arr [.obj [("key", .str "A"), ("value", .str "1")]]),
        some "KEY"⟩] := by
  have h := (claim_C5_env_add_batch exTransport exEnvAddState "1" "A=1" "s1" "KEY"
    rfl rfl (by decide)).2.1 (by decide)
  simpa using h

/-- On text over the display maximum the truncation keeps the notice plus the
character tail. -/
theorem truncate_log_long_eq (s : String) (h : MAX_TG_TEXT < s.length) :
    truncate_log s = TRUNC_NOTICE ++ tailChars s MAX_TG_TEXT := by
  unfold truncate_log
  rw [if_pos h]

/-- `s[-n:]` has length exactly `n` when `n ≤ len s`. -/
theorem tailChars_len (s : String) (n : Nat) (h : n ≤ s.length) :
    (tailChars s n).length = n := by
  show (s.data.drop (s.data.length - n)).length = n
  rw [List.length_drop]
  have hs : s.length = s.data.length := rfl
  omega

/-- `s[-n:]` is a true suffix of `s`. -/
theorem tailChars_suffix (s : String) (n : Nat) : (tailChars s n).data <:+ s.data := by
  show s.data.drop (s.data.length - n) <:+ s.data
  exact List.drop_suffix _ _

/-- The example over-length text has 3901 characters. -/
theorem exLongText_length : exLongText.length = 3901 := by
  show (List.replicate 3901 'a').length = 3901
  rw [List.length_replicate]

/-- C4 (counterexample): the claim says the rendered output is truncated to
exactly the maximum display length (3900); in the code the last 3900
characters are kept and the notice `"(truncated)\n"` is prepended on top, so
for a 3901-character text the output has length 3912 = 3900 + 12, not
3900. -/
theorem claim_C4_counterexample :
    MAX_TG_TEXT < exLongText.length
    ∧ (truncate_log exLongText).length ≠ MAX_TG_TEXT
    ∧ (truncate_log exLongText).length = MAX_TG_TEXT + TRUNC_NOTICE.length := by
  have hlen : MAX_TG_TEXT < exLongText.length := by
    rw [exLongText_length]
    norm_num [MAX_TG_TEXT]
  have hout : (truncate_log exLongText).length = MAX_TG_TEXT + TRUNC_NOTICE.length := by
    rw [truncate_log_long_eq exLongText hlen, String.length_append,
      tailChars_len exLongText MAX_TG_TEXT (le_of_lt hlen)]
    have h12 : TRUNC_NOTICE.length = 12 := by decide
    rw [h12]
    norm_num [MAX_TG_TEXT]
  refine ⟨hlen, ?_, hout⟩
  rw [hout]
  have h12 : TRUNC_NOTICE.length = 12 := by decide
  rw [h12]
  norm_num [MAX_TG_TEXT]

/-- C4 (amended): for every log text longer than the maximum display length
(3900), the rendered output is the truncation notice followed by exactly the
last 3900 characters of the original: it begins with the notice, the
retained portion after the notice is a true suffix of the original of length
exactly the maximum, and the total output length is the notice length plus
the maximum (not exactly the maximum, as the unamended claim said). -/
theorem claim_C4_truncation_keeps_tail (s : String) (h : MAX_TG_TEXT < s.length) :
    truncate_log s = TRUNC_NOTICE ++ tailChars s MAX_TG_TEXT
    ∧ (truncate_log s).length = TRUNC_NOTICE.length + MAX_TG_TEXT
    ∧ (tailChars s MAX_TG_TEXT).length = MAX_TG_TEXT
    ∧ (tailChars s MAX_TG_TEXT).data <:+ s.data := by
  refine ⟨truncate_log_long_eq s h, ?_,
    tailChars_len s MAX_TG_TEXT (le_of_lt h), tailChars_suffix s MAX_TG_TEXT⟩
  rw [truncate_log_long_eq s h, String.length_append,
    tailChars_len s MAX_TG_TEXT (le_of_lt h)]

/-- Witness for the amended C4 at the 3901-character example text. -/
theorem claim_C4_witness :
    truncate_log exLongText = TRUNC_NOTICE ++ tailChars exLongText MAX_TG_TEXT
    ∧ (tailChars exLongText MAX_TG_TEXT).data <:+ exLongText.data := by
  have h := claim_C4_truncation_keeps_tail exLongText
    (by rw [exLongText_length]; norm_num [MAX_TG_TEXT])
  exact ⟨h.1, h.2.2.2⟩

/-- The first-match loop of `resolve_owner_id` equals the first element, in
list order, satisfying the owner-type test. -/
theorem findOwnerWithType_eq_find (tname : String) (items : List JVal) :
    RenderAPI.findOwnerWithType tname items
      = (items.find? (itemHasOwnerType tname)).map ownerOf := by
  induction items with
  | nil => rfl
  | cons item rest ih =>
    show (if (ownerOf item).truthy && RenderAPI.ownerTypeIs (ownerOf item) tname
          then some (ownerOf item)
          else RenderAPI.findOwnerWithType tname rest)
        = ((item :: rest).find? (itemHasOwnerType tname)).map ownerOf
    rw [List.find?_cons]
    cases h : itemHasOwnerType tname item with
    | true =>
      rw [show ((ownerOf item).truthy && RenderAPI.ownerTypeIs (ownerOf item) tname) = true from h]
      simp
    | false =>
      rw [show ((ownerOf item).truthy && RenderAPI.ownerTypeIs (ownerOf item) tname) = false from h]
      simpa using ih

/-- C6: on a successful `/owners` response carrying a list of items,
`resolve_owner_id` returns the `id` of the first owner of type `"team"` in
the list's order; only when no team owner exists does it return the `id` of
the first owner of type `"user"`; with neither it returns `None` — so a team
owner is always preferred over a personal one, deterministically in the
returned order.  (`ownerCrashFree` excludes payloads on which the source
would raise `AttributeError` instead of selecting; see `JVal.getv`.) -/
theorem claim_C6_team_preferred (t : Transport) (api : RenderAPI)
    (items : List JVal) (body : String)
    (hresp : t ⟨"GET", "/owners", [], none, api.api_key⟩
      = .response 200 (some (.arr items)) body)
    (_hwf : ownerCrashFree items = true) :
    (RenderAPI.resolve_owner_id t api).1.1 =
      (match (items.find? (itemHasOwnerType "team")).map ownerOf with
       | some ow => ow.getv "id"
       | none =>
         match (items.find? (itemHasOwnerType "user")).map ownerOf with
         | some ow => ow.getv "id"
         | none => .null) := by
  simp only [RenderAPI.resolve_owner_id, RenderAPI.owners, RenderAPI.request]
  rw [hresp]
  simp only [RenderAPI.requestResult, RenderAPI.parseBody]
  norm_num
  rw [findOwnerWithType_eq_find, findOwnerWithType_eq_find]
  cases h1 : (items.find? (itemHasOwnerType "team")).map ownerOf with
  | some ow => rfl
  | none =>
    cases h2 : (items.find? (itemHasOwnerType "user")).map ownerOf with
    | some ow => rfl
    | none => rfl

/-- Witness for C6: with one personal owner listed before two team owners,
the first team owner's id `tm-1` is returned. -/
theorem claim_C6_witness :
    (RenderAPI.resolve_owner_id exOwnersTransport ⟨some "KEY"⟩).1.1 = .str "tm-1" := by
  have h := claim_C6_team_preferred exOwnersTransport ⟨some "KEY"⟩ exOwnersItems "" rfl
    (by decide)
  rw [h]
  rfl

/-- C7 (counterexample): the claim says a single invocation of restart never
issues more than one mutating remote call; on a transport where
`POST /services/s1/restart` fails (404), one `restart_service` invocation
issues two POSTs — the restart attempt and the fallback deploy. -/
theorem claim_C7_counterexample :
    (RenderAPI.restart_service exRestartTransport ⟨some "KEY"⟩ "s1").2.map
        (fun r => (r.method, r.path))
      = [("POST", "/services/s1/restart"), ("POST", "/services/s1/deploys")]
    ∧ 1 < (RenderAPI.restart_service exRestartTransport ⟨some "KEY"⟩ "s1").2.length := by
  exact ⟨rfl, by decide⟩

/-- C7 (amended): one `trigger_deploy` or `delete_env_var` invocation issues
exactly one remote call with no retry; one `restart_service` invocation
issues the restart POST and, exactly when that attempt fails, one fallback
deploy POST — never more than two calls and never a second attempt at the
same endpoint. -/
theorem claim_C7_one_attempt_with_restart_fallback (t : Transport)
    (api : RenderAPI) (sid key_name : String) (cc : Bool) :
    (RenderAPI.restart_service t api sid).2 =
      (if (RenderAPI.requestResult
            (t ⟨"POST", "/services/" ++ sid ++ "/restart", [],
                some (.obj []), api.api_key⟩)).1
       then [⟨"POST", "/services/" ++ sid ++ "/restart", [],
              some (.obj []), api.api_key⟩]
       else [⟨"POST", "/services/" ++ sid ++ "/restart", [],
              some (.obj []), api.api_key⟩,
             ⟨"POST", "/services/" ++ sid ++ "/deploys", [],
              some (.obj [("clearCache", .bool false)]), api.api_key⟩])
    ∧ (RenderAPI.restart_service t api sid).2.length ≤ 2
    ∧ (RenderAPI.trigger_deploy t api sid cc).2 =
        [⟨"POST", "/services/" ++ sid ++ "/deploys", [],
          some (.obj [("clearCache", .bool cc)]), api.api_key⟩]
    ∧ (RenderAPI.delete_env_var t api sid key_name).2 =
        [⟨"DELETE", "/services/" ++ sid ++ "/env-vars/" ++ key_name, [],
          none, api.api_key⟩] := by
  refine ⟨?_, ?_, rfl, rfl⟩
  · simp only [RenderAPI.restart_service, RenderAPI.trigger_deploy, RenderAPI.request]
    split <;> rfl
  · simp only [RenderAPI.restart_service, RenderAPI.trigger_deploy, RenderAPI.request]
    split <;> simp

/-- C8: the page-size limit forwarded by `list_services` and
`get_service_logs` is exactly `min(limit, 100)` (omitted entirely by
`list_services` for a falsy limit), and `min(limit, 100)` never exceeds the
documented maximum of 100. -/
theorem claim_C8_limit_clamped (t : Transport) (api : RenderAPI) (limit : Int)
    (sid : String) (tail : Bool) :
    (RenderAPI.list_services t api limit).2 =
      [⟨"GET", "/services",
        (if limit ≠ 0 then [("limit", .int (min limit 100))] else []),
        none, api.api_key⟩]
    ∧ (RenderAPI.get_service_logs t api sid tail limit).2 =
      [⟨"GET", "/services/" ++ sid ++ "/logs",
        [("tail", .str (if tail then "true" else "false")),
         ("limit", .int (min limit 100))],
        none, api.api_key⟩]
    ∧ min limit 100 ≤ 100 := by
  exact ⟨rfl, rfl, min_le_right _ _⟩

/-- C9: when the user has no stored credential, the credential-requiring
menu actions (list resources, account, status, restart) answer with the
prompt-to-login message and issue zero remote calls, leaving the state
unchanged — the handler returns a value (never fatal to the session). -/
theorem claim_C9_no_credential_no_calls (t : Transport) (st : BotState) (uid : String)
    (h : get_user_key st uid = none) :
    on_cb t st uid "list_apps" = ⟨[("Please /login first.", some main_menu)], st, []⟩
    ∧ on_cb t st uid "account" = ⟨[("Please /login first.", some main_menu)], st, []⟩
    ∧ on_cb t st uid "svc_status:srv-1"
        = ⟨[("Please /login first.", some main_menu)], st, []⟩
    ∧ on_cb t st uid "svc_restart:srv-1"
        = ⟨[("Please /login first.", some (service_menu "srv-1"))], st, []⟩ := by
  refine ⟨?_, ?_, ?_, ?_⟩ <;>
    (unfold on_cb; rw [show get_user_key st uid = none from h]; rfl)

/-- Witness for C9: the list-resources tap with no credential on file. -/
theorem claim_C9_witness :
    on_cb exTransport exEmptyState "7" "list_apps"
      = ⟨[("Please /login first.", some main_menu)], exEmptyState, []⟩ :=
  (claim_C9_no_credential_no_calls exTransport exEmptyState "7" rfl).1

/-- C10: `create_service` validates locally before any remote call: an
invalid `service_type` yields `(False, {"status_code": 400, ...})` with zero
HTTP requests, and a repo-requiring type (`web_service`, `private_service`,
`background_worker`, `workflow`) with a falsy repo (absent — also the empty
string) likewise yields a 400-style descriptor with zero HTTP requests. -/
theorem claim_C10_create_validates_locally (t : Transport) (api : RenderAPI)
    (owner_id : JVal) (name service_type : String) (repo : Option String)
    (branch : String) (runtime start_command build_command : Option String)
    (env_vars : Option (List (String × String))) (plan : Option String) :
    (service_type ∉ VALID_SERVICE_TYPES →
      RenderAPI.create_service t api owner_id name service_type repo branch
          runtime start_command build_command env_vars plan
        = ((false, RenderAPI.localError400
            ("invalid service type: " ++ service_type)), []))
    ∧ (service_type ∈ repo_types → truthyS repo = false →
      RenderAPI.create_service t api owner_id name service_type repo branch
          runtime start_command build_command env_vars plan
        = ((false, RenderAPI.localError400
            "repo is required for selected service type"), [])) := by
  constructor
  · intro h
    unfold RenderAPI.create_service
    rw [if_pos h]
  · intro hmem hrepo
    have hvalid : service_type ∈ VALID_SERVICE_TYPES := by
      fin_cases hmem <;> decide
    unfold RenderAPI.create_service
    rw [if_neg (not_not_intro hvalid), if_pos]
    simp [hmem, hrepo]

/-- Witness for C10: an invalid type and a repo-less `web_service`, each with
zero requests issued. -/
theorem claim_C10_witness :
    RenderAPI.create_service exTransport ⟨some "KEY"⟩ (.str "ow") "n" "bogus"
        none "main" none none none none none
      = ((false, RenderAPI.localError400 "invalid service type: bogus"), [])
    ∧ RenderAPI.create_service exTransport ⟨some "KEY"⟩ (.str "ow") "n" "web_service"
        none "main" none none none none none
      = ((false, RenderAPI.localError400
          "repo is required for selected service type"), []) := by
  constructor
  · exact (claim_C10_create_validates_locally exTransport ⟨some "KEY"⟩ (.str "ow") "n"
      "bogus" none "main" none none none none none).1 (by decide)
  · exact (claim_C10_create_validates_locally exTransport ⟨some "KEY"⟩ (.str "ow") "n"
      "web_service" none "main" none none none none none).2 (by decide) rfl
